import Mathlib

/-!
Verification development for the pmount/pumount policy core.

Shallow embedding of the C sources in src/: pure decision logic is
translated into Lean functions; interactions with the operating system
(stat results, exit statuses of spawned external programs, directory
contents) are passed in as explicit parameters, so every function is a
deterministic function of the system state it observes.  Integer-valued
C results (0 / -1 / exit statuses) are kept as Int.
-/

namespace Pmount

/-- Exit codes from src/src/utils.c. -/
def E_ARGS : Int := 1
def E_DEVICE : Int := 2
def E_MNTPT : Int := 3
def E_POLICY : Int := 4
def E_EXECMOUNT : Int := 5
def E_EXECUMOUNT : Int := 5
def E_UNLOCK : Int := 6
def E_PID : Int := 7
def E_LOCKED : Int := 8
def E_DISALLOWED : Int := 9
def E_LOSETUP : Int := 10
def E_INTERNAL : Int := 100

/-- The C EXIT_FAILURE value, returned by main when removing the mount
point fails after a failed mount. -/
def EXIT_FAILURE : Int := 1

/-- strreplace from src/src/utils.c: copy a string replacing every
occurrence of one character by another. -/
def strreplace (s : String) (c₁ c₂ : Char) : String :=
  s.map (fun c => if c = c₁ then c₂ else c)

/-- Result of stat(2) on a path, restricted to the fields the embedded
code inspects.  A value of none for an Option FileStat parameter means
the stat call failed. -/
structure FileStat where
  st_dev : Nat
  st_ino : Nat
  st_mode : Nat
  st_uid : Nat
  deriving DecidableEq, Repr

/-- S_IRUSR owner-read permission bit. -/
def S_IRUSR : Nat := 0o400
/-- S_IWUSR owner-write permission bit. -/
def S_IWUSR : Nat := 0o200

/-- Block-device stat result as seen by device_valid: whether the path
stats successfully and whether S_ISBLK holds on its mode. -/
structure DevStat where
  is_blk : Bool
  deriving DecidableEq, Repr

/-- device_valid from src/src/policy.c (lines 404-420): the path must
stat successfully and be a block special file. -/
def device_valid (st : Option DevStat) : Bool :=
  match st with
  | none => false
  | some s => s.is_blk

/-- check_mount_policy from src/src/pmount.c (lines 112-129).  Each
argument is the boolean verdict of the corresponding policy function,
in the order the source evaluates them; the source computes the
conjunction and maps true to 0 and false to -1. -/
def check_mount_policy (valid mounted doing_loop allowlisted removable
    locked mpvalid mpmounted : Bool) : Int :=
  if valid && !mounted && (doing_loop || allowlisted || removable)
      && !locked && mpvalid && !mpmounted then 0 else -1

/-- State of a per-device lock directory: none when the directory does
not exist, otherwise the list of pid-named lock files inside it. -/
def LockDirState : Type := Option (List Nat)

/-- clean_lock_dir from src/src/pmount.c (lines 633-678): open the lock
directory (return unchanged when it does not exist), unlink every entry
whose pid is not alive (pid_exists probes with a zero-signal kill), and
finally rmdir the directory, which succeeds exactly when it became
empty. -/
def clean_lock_dir (st : LockDirState) (alive : Nat → Bool) : LockDirState :=
  match st with
  | none => none
  | some pids =>
    let survivors := pids.filter alive
    if survivors.isEmpty then none else some survivors

/-- device_locked from src/src/policy.c (lines 679-692): build the
per-device lock directory name and report whether it exists as a
directory (is_dir from src/src/utils.c lines 194-203). -/
def device_locked (st : LockDirState) : Bool :=
  st.isSome

/-- device_mounted from src/src/policy.c (lines 535-555), as a function
of what it reads: found is whether /etc/mtab or /proc/mounts has an
entry for the device, entry_uid is the uid= option of that entry (-1
when absent), expect is the expected mount state, caller_uid is
getuid().  The ownership rejection fires only when the entry is found,
a mounted state is expected, a uid option is present and differs from
the caller, and the caller is not root. -/
def device_mounted (found : Bool) (entry_uid : Int) (expect : Bool)
    (caller_uid : Nat) : Bool :=
  if found && expect && decide (0 ≤ entry_uid)
      && decide (entry_uid.toNat ≠ caller_uid) && decide (0 < caller_uid) then
    false
  else
    found

/-- Status values of luks_decrypt, from src/src/luks.h. -/
inductive decrypt_status where
  | DECRYPT_OK
  | DECRYPT_NOTENCRYPTED
  | DECRYPT_FAILED
  | DECRYPT_EXISTS
  deriving DecidableEq, Repr

open decrypt_status

/-- luks_decrypt from src/src/luks.c (lines 42-108), as a function of
the exit status of cryptsetup isLuks, whether the deterministic
/dev/mapper path already exists, and the exit status of cryptsetup
luksOpen.  The returned pair is the status together with the decrypted
device name written through the out-parameter; none models the
exit(E_INTERNAL) performed on any luksOpen status other than 0 and 1
(for those inputs the luksOpen spawn never happens or its status is
irrelevant, so unused oracle fields are still passed but ignored). -/
def luks_decrypt (device : String) (isLuks_status : Int)
    (mapped_exists : Bool) (open_status : Int) :
    Option (decrypt_status × String) :=
  if isLuks_status ≠ 0 then
    some (DECRYPT_NOTENCRYPTED, device)
  else
    let label := strreplace device '/' '_'
    let decrypted := "/dev/mapper/" ++ label
    if mapped_exists then
      some (DECRYPT_EXISTS, decrypted)
    else if open_status = 0 then
      some (DECRYPT_OK, decrypted)
    else if open_status = 1 then
      some (DECRYPT_FAILED, decrypted)
    else
      none

/-- Actions performed by luks_release. -/
structure ReleaseState where
  closed : Bool
  lockfile_removed : Bool
  deriving DecidableEq, Repr

/-- luks_release from src/src/luks.c (lines 110-124): when force is set
or the ownership lockfile exists, spawn cryptsetup luksClose (a nonzero
status is fatal, modelled as none) and remove the lockfile; otherwise do
nothing. -/
def luks_release (force has_lockfile : Bool) (close_status : Int) :
    Option ReleaseState :=
  if force || has_lockfile then
    if close_status ≠ 0 then none
    else some { closed := true, lockfile_removed := true }
  else
    some { closed := false, lockfile_removed := false }

/-- System state observed by umount_device on the regular (non
full-device) path. -/
structure UmountWorld where
  mapped_exists : Bool
  policy_ok : Bool
  umount_status : Int
  has_lockfile : Bool
  close_status : Int
  deriving DecidableEq, Repr

/-- Outcome of umount_device: its return value, the release actions (if
luks_release ran to completion) and whether remove_pmount_mntpt was
reached. -/
structure UmountResult where
  code : Int
  release : Option ReleaseState
  mntpt_remove_called : Bool
  deriving DecidableEq, Repr

/-- umount_device from src/src/pumount.c (lines 182-215), regular mode
(full_device = 0): substitute the mapped device if one exists, apply
check_umount_policy, run the external umount, then call
luks_release(device, 1) — the force argument is the literal constant 1
in the source; the luks_force command-line flag parsed by main is never
passed down — and finally remove the mount point.  none models the
fatal exit inside luks_release. -/
def umount_device (w : UmountWorld) : Option UmountResult :=
  if !w.policy_ok then
    some { code := E_POLICY, release := none, mntpt_remove_called := false }
  else if w.umount_status ≠ 0 then
    some { code := E_EXECUMOUNT, release := none, mntpt_remove_called := false }
  else
    match luks_release true w.has_lockfile w.close_status with
    | none => none
    | some rs =>
      some { code := 0, release := some rs, mntpt_remove_called := true }

/-- loopdev_find_unused from src/src/loop.c (lines 38-54): none when the
configuration supplies no loop-device list; otherwise the first
non-empty entry for which the losetup probe exits with status 1 (device
not configured).  Falling off the end of the list is modelled as none,
matching the only value the caller treats as failure (the C function is
missing an explicit return NULL there). -/
def loopdev_find_unused (devices : Option (List String))
    (losetup_probe : String → Int) : Option String :=
  match devices with
  | none => none
  | some ds => ds.find? (fun d => d.length > 0 && losetup_probe d == 1)

/-- System state observed by loopdev_associate: the stat of the source
path before losetup, the real uid of the caller, the configured loop
device list with the losetup probe results, the exit status of the
binding losetup call, the file the source path resolves to at the
moment losetup opens it, and the stat of the source path afterwards. -/
structure LoopWorld where
  stat_before : Option FileStat
  caller_uid : Nat
  loop_devices : Option (List String)
  losetup_probe : String → Int
  bind_status : Int
  bind_target : FileStat
  stat_after : Option FileStat

/-- loopdev_associate from src/src/loop.c (lines 72-148): stat the
source (fail when stat fails); fail unless the calling real user owns it
and the owner read and write permission bits are set; pick a loop device
with loopdev_find_unused (fail when none); run losetup device source
(fail on nonzero status); stat the source again and fail — after
dissociating — when the second stat fails or differs from the first on
st_dev (the source compares st_dev twice; st_ino is never compared),
st_mode or st_uid; otherwise return the loop device.  The binding
itself operates on the path, so it attaches w.bind_target, the file the
path resolves to at losetup time. -/
def loopdev_associate (w : LoopWorld) : Option String :=
  match w.stat_before with
  | none => none
  | some before =>
    if !(before.st_uid == w.caller_uid
        && before.st_mode &&& S_IRUSR != 0
        && before.st_mode &&& S_IWUSR != 0) then
      none
    else
      match loopdev_find_unused w.loop_devices w.losetup_probe with
      | none => none
      | some device =>
        if w.bind_status ≠ 0 then none
        else
          match w.stat_after with
          | none => none
          | some after =>
            if after.st_dev ≠ before.st_dev
                || after.st_dev ≠ before.st_dev
                || after.st_mode ≠ before.st_mode
                || after.st_uid ≠ before.st_uid then
              none
            else
              some device

/-- Entry of the supported-filesystem table, from src/src/fs.h. -/
structure FS where
  fsname : String
  options : String
  support_ugid : Bool
  umask : Option String
  iocharset_format : Option String
  fdmask : Option String
  skip_autodetect : Bool
  deriving DecidableEq, Repr

/-- The supported_fs table from src/src/fs.c, in declared order (the
NULL terminator of the C array is the end of the list). -/
def supported_fs : List FS := [
  { fsname := "udf", options := "nosuid,nodev,user", support_ugid := true,
    umask := some "000", iocharset_format := some ",iocharset=%s",
    fdmask := none, skip_autodetect := false },
  { fsname := "iso9660", options := "nosuid,nodev,user", support_ugid := true,
    umask := none, iocharset_format := some ",iocharset=%s",
    fdmask := none, skip_autodetect := false },
  { fsname := "vfat", options := "nosuid,nodev,user,quiet,shortname=mixed",
    support_ugid := true, umask := some "077",
    iocharset_format := some ",iocharset=%s",
    fdmask := some ",fmask=%04o,dmask=%04o", skip_autodetect := false },
  { fsname := "exfat", options := "nosuid,nodev,user,quiet,nonempty",
    support_ugid := true, umask := some "077",
    iocharset_format := some ",iocharset=%s",
    fdmask := some ",fmask=%04o,dmask=%04o", skip_autodetect := false },
  { fsname := "hfsplus", options := "nosuid,nodev,user", support_ugid := true,
    umask := none, iocharset_format := none, fdmask := none,
    skip_autodetect := false },
  { fsname := "hfs", options := "nosuid,nodev,user", support_ugid := true,
    umask := some "077", iocharset_format := none,
    fdmask := some ",file_umask=%04o,dir_umask=%04o",
    skip_autodetect := false },
  { fsname := "ext3", options := "nodev,noauto,nosuid,user,errors=remount-ro",
    support_ugid := false, umask := none, iocharset_format := none,
    fdmask := none, skip_autodetect := false },
  { fsname := "ext2", options := "nodev,noauto,nosuid,user,errors=remount-ro",
    support_ugid := false, umask := none, iocharset_format := none,
    fdmask := none, skip_autodetect := false },
  { fsname := "ext4", options := "nodev,noauto,nosuid,user,errors=remount-ro",
    support_ugid := false, umask := none, iocharset_format := none,
    fdmask := none, skip_autodetect := false },
  { fsname := "reiserfs", options := "nodev,noauto,nosuid,user",
    support_ugid := false, umask := none, iocharset_format := none,
    fdmask := none, skip_autodetect := false },
  { fsname := "reiser4", options := "nodev,noauto,nosuid,user",
    support_ugid := false, umask := none, iocharset_format := none,
    fdmask := none, skip_autodetect := false },
  { fsname := "xfs", options := "nodev,noauto,nosuid,user",
    support_ugid := false, umask := none, iocharset_format := none,
    fdmask := none, skip_autodetect := false },
  { fsname := "jfs", options := "nodev,noauto,nosuid,user,errors=remount-ro",
    support_ugid := false, umask := none,
    iocharset_format := some ",iocharset=%s", fdmask := none,
    skip_autodetect := false },
  { fsname := "omfs", options := "nodev,noauto,nosuid,user",
    support_ugid := false, umask := none, iocharset_format := none,
    fdmask := none, skip_autodetect := false },
  { fsname := "ntfs-fuse", options := "nosuid,nodev,user",
    support_ugid := true, umask := some "077", iocharset_format := none,
    fdmask := some ",fmask=%04o,dmask=%04o", skip_autodetect := true },
  { fsname := "ntfs-3g", options := "nosuid,nodev,user",
    support_ugid := true, umask := some "077", iocharset_format := none,
    fdmask := some ",fmask=%04o,dmask=%04o", skip_autodetect := true },
  { fsname := "ntfs", options := "nosuid,nodev,user",
    support_ugid := true, umask := some "077",
    iocharset_format := some ",nls=%s", fdmask := none,
    skip_autodetect := false }]

/-- get_fs_info from src/src/fs.c: linear strcmp scan of the table. -/
def get_fs_info (fsname : String) : Option FS :=
  supported_fs.find? (fun fs => fs.fsname == fsname)

/-- get_supported_fs from src/src/fs.c. -/
def get_supported_fs : List FS := supported_fs

/-- is_word_str from src/src/utils.c (lines 266-283): nonempty and all
characters alphanumeric, dash or underscore. -/
def is_word_str (s : String) : Bool :=
  !s.isEmpty && s.toList.all (fun c =>
    (c ≥ 'a' && c ≤ 'z') || (c ≥ 'A' && c ≤ 'Z')
      || (c ≥ '0' && c ≤ '9') || c == '-' || c == '_')

/-- One invocation of the external mount program: the -t argument and
whether its stderr was redirected to /dev/null. -/
structure Attempt where
  fsname : String
  suppress : Bool
  deriving DecidableEq, Repr

/-- Whether a user-supplied mask (already run through parse_unsigned,
which exits the process on unparsable input) exceeds 0777. -/
def mask_invalid (mask : Option Nat) : Bool :=
  match mask with
  | none => false
  | some u => u > 0o777

/-- do_mount from src/src/pmount.c (lines 232-393), instrumented with
the list of external mount invocations it performs.  mountExit gives
the exit status of the spawned mount program as a function of the
filesystem name and the iocharset argument.  The early -1 returns
(unknown filesystem, mask above 0777, charset failing is_word_str when
the filesystem has an iocharset format) perform no invocation;
otherwise exactly one invocation happens, with stderr suppressed iff
the suppress argument is set. -/
def do_mount (mountExit : String → Option String → Int) (fsname : String)
    (iocharset : Option String) (umask fmask dmask : Option Nat)
    (suppress : Bool) : List Attempt × Int :=
  match get_fs_info fsname with
  | none => ([], -1)
  | some fs =>
    if mask_invalid umask then ([], -1)
    else if mask_invalid fmask then ([], -1)
    else if mask_invalid dmask then ([], -1)
    else
      match iocharset, fs.iocharset_format with
      | some cs, some _ =>
        if !is_word_str cs then ([], -1)
        else ([{ fsname := fsname, suppress := suppress }],
              mountExit fsname iocharset)
      | _, _ =>
        ([{ fsname := fsname, suppress := suppress }],
         mountExit fsname iocharset)

/-- The autodetection loop of do_mount_auto from src/src/pmount.c
(lines 415-478), without the optional blkid preamble (HAVE_BLKID
unset).  Walks the remaining table entries carrying the nostderr flag
and the current result value: entries marked skip_autodetect are
skipped unless they are ntfs-3g and the ntfs-3g mount helper exists;
nostderr is cleared when the entry is the last of the table; on a
nonzero result with an iocharset a second attempt without the charset
is made; the loop stops on result 0, on result ≤ 0 after the retry
logic, or at the end of the table. -/
def do_mount_auto_go (mountExit : String → Option String → Int)
    (ntfs3g_avail : Bool) (iocharset : Option String)
    (umask fmask dmask : Option Nat) :
    List FS → Bool → Int → List Attempt × Int
  | [], _, res => ([], res)
  | f :: rest, nostderr, res =>
    if f.skip_autodetect && !(f.fsname == "ntfs-3g" && ntfs3g_avail) then
      do_mount_auto_go mountExit ntfs3g_avail iocharset umask fmask dmask
        rest nostderr res
    else
      let nostderr' := if rest.isEmpty then false else nostderr
      let first := do_mount mountExit f.fsname iocharset umask fmask dmask
        nostderr'
      if first.2 = 0 then first
      else
        match iocharset with
        | some _ =>
          let second := do_mount mountExit f.fsname none umask fmask dmask
            nostderr'
          if second.2 ≤ 0 then (first.1 ++ second.1, second.2)
          else
            let next := do_mount_auto_go mountExit ntfs3g_avail iocharset
              umask fmask dmask rest nostderr' second.2
            (first.1 ++ second.1 ++ next.1, next.2)
        | none =>
          if first.2 ≤ 0 then first
          else
            let next := do_mount_auto_go mountExit ntfs3g_avail iocharset
              umask fmask dmask rest nostderr' first.2
            (first.1 ++ next.1, next.2)

/-- do_mount_auto entry point: start at the head of the table with
nostderr set and result -1. -/
def do_mount_auto (mountExit : String → Option String → Int)
    (ntfs3g_avail : Bool) (iocharset : Option String)
    (umask fmask dmask : Option Nat) : List Attempt × Int :=
  do_mount_auto_go mountExit ntfs3g_avail iocharset umask fmask dmask
    get_supported_fs true (-1)

/-- System state observed by the MOUNT branch of main in
src/src/pmount.c (lines 966-1111), after device resolution and loop
setup. -/
structure MountWorld where
  mkmntpt_ok : Bool
  policy_ok : Bool
  open_ok : Bool
  isLuks_status : Int
  mapped_exists : Bool
  luksOpen_status : Int
  create_lockfile_ok : Bool
  lock_dir_ok : Bool
  run_fsck : Bool
  fsck_ok : Bool
  mount_ok : Bool
  remove_mntpt_ok : Bool
  deriving DecidableEq, Repr

/-- Trace of the MOUNT branch of main: the returned code (none models
process termination inside luks_decrypt), whether luks_release,
loopdev_dissociate and remove_pmount_mntpt were invoked, and whether
the mount point lock was released again. -/
structure MountTrace where
  exit : Option Int
  luks_released : Bool
  loop_dissociated : Bool
  mntpt_removed : Bool
  unlocked : Bool
  deriving DecidableEq, Repr

/-- The MOUNT branch of main from src/src/pmount.c (lines 966-1111),
starting after the loop-device setup decided doing_loop: build the
mount point name (E_MNTPT on failure), clean stale locks, run
check_mount_policy (E_POLICY on failure), open the device to probe for
a medium (E_DEVICE on failure), run luks_decrypt (DECRYPT_FAILED and
DECRYPT_EXISTS are E_POLICY; DECRYPT_OK additionally writes the luks
lockfile, with failure only warned about), take the mount point lock
(E_LOCKED on failure), run fsck when requested, mount (mount_failed
abstracts a nonzero result of the explicit do_mount or of
do_mount_auto), unlock the mount point, and on a mount or fsck failure
release the luks mapping when this invocation decrypted it, dissociate
the loop device when loop-mounting, and remove the created mount point
(EXIT_FAILURE when that removal fails, E_EXECMOUNT otherwise). -/
def pmount_mount (device : String) (doing_loop : Bool) (w : MountWorld) :
    MountTrace :=
  if !w.mkmntpt_ok then
    { exit := some E_MNTPT, luks_released := false,
      loop_dissociated := doing_loop, mntpt_removed := false,
      unlocked := false }
  else if !w.policy_ok then
    { exit := some E_POLICY, luks_released := false,
      loop_dissociated := doing_loop, mntpt_removed := false,
      unlocked := false }
  else if !w.open_ok then
    { exit := some E_DEVICE, luks_released := false,
      loop_dissociated := false, mntpt_removed := false, unlocked := false }
  else
    match luks_decrypt device w.isLuks_status w.mapped_exists
        w.luksOpen_status with
    | none =>
      { exit := none, luks_released := false, loop_dissociated := false,
        mntpt_removed := false, unlocked := false }
    | some (st, _) =>
      match st with
      | DECRYPT_FAILED =>
        { exit := some E_POLICY, luks_released := false,
          loop_dissociated := doing_loop, mntpt_removed := false,
          unlocked := false }
      | DECRYPT_EXISTS =>
        { exit := some E_POLICY, luks_released := false,
          loop_dissociated := doing_loop, mntpt_removed := false,
          unlocked := false }
      | _ =>
        if !w.lock_dir_ok then
          { exit := some E_LOCKED, luks_released := false,
            loop_dissociated := doing_loop, mntpt_removed := false,
            unlocked := false }
        else
          let fsck_failed := w.run_fsck && !w.fsck_ok
          let failed := fsck_failed || (!fsck_failed && !w.mount_ok)
          if failed then
            { exit := some (if w.remove_mntpt_ok then E_EXECMOUNT
                            else EXIT_FAILURE),
              luks_released := st == DECRYPT_OK,
              loop_dissociated := doing_loop, mntpt_removed := true,
              unlocked := true }
          else
            { exit := some 0, luks_released := false,
              loop_dissociated := false, mntpt_removed := false,
              unlocked := true }

/-! Theorems. -/

/-- C1: for every mount request, admission is granted iff the device is
a valid block device, not already mounted, (a loop mount is in progress
or the device is allowlisted or removable), not locked, the mount point
is valid and does not already contain a mounted filesystem;
check_mount_policy returns 0 exactly when all of these pass. -/
theorem check_mount_policy_admission_iff (st : Option DevStat)
    (mounted doing_loop allowlisted removable locked mpvalid mpmounted :
      Bool) :
    check_mount_policy (device_valid st) mounted doing_loop allowlisted
        removable locked mpvalid mpmounted = 0 ↔
      ((∃ s, st = some s ∧ s.is_blk = true) ∧ mounted = false ∧
        (doing_loop = true ∨ allowlisted = true ∨ removable = true) ∧
        locked = false ∧ mpvalid = true ∧ mpmounted = false) := by
  have hiff : ∀ c : Bool, ((if c then (0 : Int) else -1) = 0 ↔ c = true) := by
    intro c
    cases c <;> simp
  cases st with
  | none =>
    simp [check_mount_policy, device_valid, hiff]
  | some s =>
    cases s with
    | mk b =>
      cases b <;>
        simp [check_mount_policy, device_valid, hiff] <;>
        cases mounted <;> cases doing_loop <;> cases allowlisted <;>
        cases removable <;> cases locked <;> cases mpvalid <;>
        cases mpmounted <;> simp

/-- C4: device_locked reports true exactly when the lock directory of
the device exists and is non-empty once entries whose pid is no longer
alive have been garbage-collected by clean_lock_dir. -/
theorem device_locked_after_clean_iff (st : LockDirState)
    (alive : Nat → Bool) :
    device_locked (clean_lock_dir st alive) = true ↔
      ∃ pids, st = some pids ∧ pids.filter alive ≠ [] := by
  cases st with
  | none => simp [device_locked, clean_lock_dir]
  | some pids =>
    by_cases h : (pids.filter alive).isEmpty
    · have hnil : pids.filter alive = [] := List.isEmpty_iff.mp h
      simp [device_locked, clean_lock_dir, h, hnil]
      intro x hx
      cases hx
      intro y hy
      simpa using List.filter_eq_nil_iff.mp hnil y hy
    · have hne : pids.filter alive ≠ [] := by
        intro hx
        exact h (by simp [hx])
      simp [device_locked, clean_lock_dir, h, hne]
      by_contra hall
      push_neg at hall
      exact hne (List.filter_eq_nil_iff.mpr (hall pids rfl))

/-- C9: when the live mount table declares an owner uid different from
the caller, device_mounted with expect = 1 still reports the device as
mounted for a caller whose real uid is 0, and rejects (returns 0) only
for non-root callers. -/
theorem device_mounted_root_bypasses_owner (entry_uid : Int) (caller : Nat)
    (h0 : 0 ≤ entry_uid) (hroot_ne : entry_uid.toNat ≠ 0)
    (hc : 0 < caller) (hne : entry_uid.toNat ≠ caller) :
    device_mounted true entry_uid true 0 = true ∧
      device_mounted true entry_uid true caller = false := by
  constructor
  · simp [device_mounted]
  · simp [device_mounted, h0, hne, hc]

/-- C9 witness: a found entry with uid 1000 is still reported mounted to
root but not to caller 7. -/
theorem device_mounted_root_bypasses_owner_witness :
    device_mounted true 1000 true 0 = true ∧
      device_mounted true 1000 true 7 = false :=
  device_mounted_root_bypasses_owner 1000 7 (by decide) (by decide)
    (by decide) (by decide)

/-- C7: luks_decrypt returns DECRYPT_NOTENCRYPTED with the device handed
back unchanged when cryptsetup isLuks reports no LUKS metadata; returns
DECRYPT_EXISTS when the deterministic /dev/mapper path already exists
before opening; and after the external luksOpen returns DECRYPT_OK on
exit status 0, DECRYPT_FAILED on exit status 1, and terminates the
process (modelled as none) on any other status. -/
theorem luks_decrypt_status_cases (device : String) (isLuks_status : Int)
    (mapped_exists : Bool) (open_status : Int) :
    (isLuks_status ≠ 0 →
      luks_decrypt device isLuks_status mapped_exists open_status =
        some (DECRYPT_NOTENCRYPTED, device)) ∧
    (isLuks_status = 0 → mapped_exists = true →
      luks_decrypt device isLuks_status mapped_exists open_status =
        some (DECRYPT_EXISTS, "/dev/mapper/" ++ strreplace device '/' '_')) ∧
    (isLuks_status = 0 → mapped_exists = false → open_status = 0 →
      luks_decrypt device isLuks_status mapped_exists open_status =
        some (DECRYPT_OK, "/dev/mapper/" ++ strreplace device '/' '_')) ∧
    (isLuks_status = 0 → mapped_exists = false → open_status = 1 →
      luks_decrypt device isLuks_status mapped_exists open_status =
        some (DECRYPT_FAILED, "/dev/mapper/" ++ strreplace device '/' '_')) ∧
    (isLuks_status = 0 → mapped_exists = false → open_status ≠ 0 →
      open_status ≠ 1 →
      luks_decrypt device isLuks_status mapped_exists open_status = none) := by
  refine ⟨?_, ?_, ?_, ?_, ?_⟩ <;> intro h1
  · simp [luks_decrypt, h1]
  all_goals intro h2
  · simp [luks_decrypt, h1, h2]
  all_goals intro h3
  · simp [luks_decrypt, h1, h2, h3]
  · simp [luks_decrypt, h1, h2, h3]
  · intro h4
    simp [luks_decrypt, h1, h2, h3, h4]

/-- C7 witness: the five outcomes at concrete inputs for device
/dev/sdb1 (non-LUKS; mapping already present; luksOpen statuses 0, 1
and 2). -/
theorem luks_decrypt_status_cases_witness :
    luks_decrypt "/dev/sdb1" 1 false 0 =
        some (DECRYPT_NOTENCRYPTED, "/dev/sdb1") ∧
      luks_decrypt "/dev/sdb1" 0 true 0 =
        some (DECRYPT_EXISTS, "/dev/mapper/" ++
          strreplace "/dev/sdb1" '/' '_') ∧
      luks_decrypt "/dev/sdb1" 0 false 0 =
        some (DECRYPT_OK, "/dev/mapper/" ++
          strreplace "/dev/sdb1" '/' '_') ∧
      luks_decrypt "/dev/sdb1" 0 false 1 =
        some (DECRYPT_FAILED, "/dev/mapper/" ++
          strreplace "/dev/sdb1" '/' '_') ∧
      luks_decrypt "/dev/sdb1" 0 false 2 = none :=
  ⟨(luks_decrypt_status_cases "/dev/sdb1" 1 false 0).1 (by decide),
   (luks_decrypt_status_cases "/dev/sdb1" 0 true 0).2.1 rfl rfl,
   (luks_decrypt_status_cases "/dev/sdb1" 0 false 0).2.2.1 rfl rfl rfl,
   (luks_decrypt_status_cases "/dev/sdb1" 0 false 1).2.2.2.1 rfl rfl rfl,
   (luks_decrypt_status_cases "/dev/sdb1" 0 false 2).2.2.2.2 rfl rfl
     (by decide) (by decide)⟩

/-- C3: evaluation of the unmount orchestration at the failing input.
After a successful external unmount of a mapped device whose ownership
lockfile does not exist and with no --luks-force given (main never
propagates that flag into umount_device, which passes the constant 1 as
the force argument of luks_release), the mapping is closed anyway —
whereas luks_release called as documented, with force = false and no
lockfile, would leave the mapping alone. -/
theorem umount_device_closes_unowned_mapping :
    umount_device
        { mapped_exists := true, policy_ok := true, umount_status := 0,
          has_lockfile := false, close_status := 0 } =
      some { code := 0,
             release := some { closed := true, lockfile_removed := true },
             mntpt_remove_called := true } ∧
      luks_release false false 0 =
        some { closed := false, lockfile_removed := false } := by
  constructor <;> rfl

/-- C2 counterexample: a mount invocation in which both the loop setup
and the decryption succeeded (doing_loop, isLuks status 0, mapping
absent, luksOpen status 0) and which then fails to acquire the mount
point lock returns the error E_LOCKED after dissociating the loop
device, but releases no LUKS mapping and removes no mount point —
refuting the claim that every failure path after LoopSetup/Decrypt
releases both resources and removes the created mount point. -/
theorem pmount_lock_failure_counterexample :
    pmount_mount "/dev/loop0" true
        { mkmntpt_ok := true, policy_ok := true, open_ok := true,
          isLuks_status := 0, mapped_exists := false, luksOpen_status := 0,
          create_lockfile_ok := true, lock_dir_ok := false,
          run_fsck := false, fsck_ok := true, mount_ok := true,
          remove_mntpt_ok := true } =
      { exit := some E_LOCKED, luks_released := false,
        loop_dissociated := true, mntpt_removed := false,
        unlocked := false } := by
  rfl

/-- C2 amended: in a mount invocation that reaches the decryption stage
with outcome DECRYPT_OK or DECRYPT_NOTENCRYPTED, a failure to acquire
the mount point lock returns E_LOCKED immediately after unwinding only
the loop association — the LUKS mapping and the created mount point are
left in place — while a failure of fsck or of the mount attempts after
the lock was acquired releases the LUKS mapping (when this invocation
decrypted it), dissociates the loop device (when loop-mounting) and
removes the created mount point before returning an error code. -/
theorem pmount_unwind_amended (device : String) (doing_loop : Bool)
    (w : MountWorld) (st : decrypt_status) (dec : String)
    (hmk : w.mkmntpt_ok = true) (hpol : w.policy_ok = true)
    (hopen : w.open_ok = true)
    (hdec : luks_decrypt device w.isLuks_status w.mapped_exists
      w.luksOpen_status = some (st, dec))
    (hok : st = DECRYPT_OK ∨ st = DECRYPT_NOTENCRYPTED) :
    (w.lock_dir_ok = false →
      pmount_mount device doing_loop w =
        { exit := some E_LOCKED, luks_released := false,
          loop_dissociated := doing_loop, mntpt_removed := false,
          unlocked := false }) ∧
    (w.lock_dir_ok = true → w.run_fsck = true → w.fsck_ok = false →
      pmount_mount device doing_loop w =
        { exit := some (if w.remove_mntpt_ok then E_EXECMOUNT
            else EXIT_FAILURE),
          luks_released := st == DECRYPT_OK, loop_dissociated := doing_loop,
          mntpt_removed := true, unlocked := true }) ∧
    (w.lock_dir_ok = true → (w.run_fsck = false ∨ w.fsck_ok = true) →
      w.mount_ok = false →
      pmount_mount device doing_loop w =
        { exit := some (if w.remove_mntpt_ok then E_EXECMOUNT
            else EXIT_FAILURE),
          luks_released := st == DECRYPT_OK, loop_dissociated := doing_loop,
          mntpt_removed := true, unlocked := true }) := by
  refine ⟨?_, ?_, ?_⟩
  · intro hlock
    rcases hok with hst | hst <;>
      simp [pmount_mount, hmk, hpol, hopen, hdec, hlock, hst]
  · intro hlock hfsck hfail
    rcases hok with hst | hst <;>
      simp [pmount_mount, hmk, hpol, hopen, hdec, hlock, hst, hfsck, hfail]
  · intro hlock hfsck hfail
    rcases hok with hst | hst <;> rcases hfsck with hf | hf <;>
      simp [pmount_mount, hmk, hpol, hopen, hdec, hlock, hst, hf, hfail]

/-- C2 amended witness: the three unwind behaviours at concrete worlds
(decryption succeeded each time): lock failure unwinds only the loop,
fsck failure and mount failure unwind everything. -/
theorem pmount_unwind_amended_witness :
    (pmount_mount "/dev/sdb1" true
        { mkmntpt_ok := true, policy_ok := true, open_ok := true,
          isLuks_status := 0, mapped_exists := false, luksOpen_status := 0,
          create_lockfile_ok := true, lock_dir_ok := false,
          run_fsck := false, fsck_ok := true, mount_ok := true,
          remove_mntpt_ok := true } =
      { exit := some E_LOCKED, luks_released := false,
        loop_dissociated := true, mntpt_removed := false,
        unlocked := false }) ∧
    (pmount_mount "/dev/sdb1" true
        { mkmntpt_ok := true, policy_ok := true, open_ok := true,
          isLuks_status := 0, mapped_exists := false, luksOpen_status := 0,
          create_lockfile_ok := true, lock_dir_ok := true,
          run_fsck := true, fsck_ok := false, mount_ok := true,
          remove_mntpt_ok := true } =
      { exit := some (if true then E_EXECMOUNT else EXIT_FAILURE),
        luks_released := DECRYPT_OK == DECRYPT_OK, loop_dissociated := true,
        mntpt_removed := true, unlocked := true }) ∧
    (pmount_mount "/dev/sdb1" true
        { mkmntpt_ok := true, policy_ok := true, open_ok := true,
          isLuks_status := 0, mapped_exists := false, luksOpen_status := 0,
          create_lockfile_ok := true, lock_dir_ok := true,
          run_fsck := false, fsck_ok := true, mount_ok := false,
          remove_mntpt_ok := true } =
      { exit := some (if true then E_EXECMOUNT else EXIT_FAILURE),
        luks_released := DECRYPT_OK == DECRYPT_OK, loop_dissociated := true,
        mntpt_removed := true, unlocked := true }) :=
  ⟨(pmount_unwind_amended "/dev/sdb1" true _ DECRYPT_OK
      ("/dev/mapper/" ++ strreplace "/dev/sdb1" '/' '_') rfl rfl rfl
      (by rfl) (Or.inl rfl)).1 rfl,
   (pmount_unwind_amended "/dev/sdb1" true _ DECRYPT_OK
      ("/dev/mapper/" ++ strreplace "/dev/sdb1" '/' '_') rfl rfl rfl
      (by rfl) (Or.inl rfl)).2.1 rfl rfl rfl,
   (pmount_unwind_amended "/dev/sdb1" true _ DECRYPT_OK
      ("/dev/mapper/" ++ strreplace "/dev/sdb1" '/' '_') rfl rfl rfl
      (by rfl) (Or.inl rfl)).2.2 rfl (Or.inl rfl) rfl⟩

/-- A world in which the source file is swapped during the losetup call
for another file with the same device, mode and owner but a different
inode: the stat before sees inode 1, losetup binds the file the path
resolves to at that moment (inode 2), and the stat after — which
compares only st_dev, st_mode and st_uid — sees the swapped file. -/
def toctou_world : LoopWorld :=
  { stat_before :=
      some { st_dev := 5, st_ino := 1, st_mode := 0o600, st_uid := 1000 },
    caller_uid := 1000,
    loop_devices := some ["/dev/loop0"],
    losetup_probe := fun _ => 1,
    bind_status := 0,
    bind_target := { st_dev := 5, st_ino := 2, st_mode := 0o600,
                     st_uid := 1000 },
    stat_after :=
      some { st_dev := 5, st_ino := 2, st_mode := 0o600, st_uid := 1000 } }

/-- Anatomy of a successful loopdev_associate run: the stats before and
after both succeeded, the ownership and permission test passed, the
device came from loopdev_find_unused, losetup exited 0, and the two
stats agree on st_dev, st_mode and st_uid. -/
theorem loopdev_associate_success_spec (w : LoopWorld) (d : String)
    (h : loopdev_associate w = some d) :
    ∃ before after,
      w.stat_before = some before ∧ w.stat_after = some after ∧
      (before.st_uid == w.caller_uid
        && before.st_mode &&& S_IRUSR != 0
        && before.st_mode &&& S_IWUSR != 0) = true ∧
      loopdev_find_unused w.loop_devices w.losetup_probe = some d ∧
      w.bind_status = 0 ∧
      after.st_dev = before.st_dev ∧ after.st_mode = before.st_mode ∧
      after.st_uid = before.st_uid := by
  unfold loopdev_associate at h
  split at h
  · exact absurd h (by simp)
  next before hsb =>
    split at h
    · exact absurd h (by simp)
    next hperm =>
      split at h
      · exact absurd h (by simp)
      next device hfind =>
        split at h
        · exact absurd h (by simp)
        next hbind =>
          split at h
          · exact absurd h (by simp)
          next after hsa =>
            split at h
            · exact absurd h (by simp)
            next hsame =>
              have hd : device = d := Option.some_injective _ h
              subst hd
              simp only [Bool.not_eq_eq_eq_not, Bool.not_true,
                Bool.not_eq_true] at hperm
              simp only [Bool.or_eq_true, decide_eq_true_eq, not_or,
                not_not] at hsame
              push_neg at hbind
              refine ⟨before, after, hsb, hsa, ?_, hfind, hbind, ?_, ?_, ?_⟩
              · cases hb : (before.st_uid == w.caller_uid
                    && before.st_mode &&& S_IRUSR != 0
                    && before.st_mode &&& S_IWUSR != 0)
                · rw [hb] at hperm
                  exact absurd hperm (by simp)
                · rfl
              · exact hsame.1.1.1
              · exact hsame.1.2
              · exact hsame.2

/-- C5 counterexample: loopdev_associate succeeds in a world where the
file bound by losetup has inode 2 while the file checked beforehand had
inode 1 — the source never opens the file and never binds through a
descriptor; it hands the path to losetup (which re-resolves it), and
its after-the-fact stat comparison looks at st_dev (twice), st_mode and
st_uid but never at st_ino, so the binding need not reference the exact
inode that was checked. -/
theorem loopdev_associate_toctou_counterexample :
    loopdev_associate toctou_world = some "/dev/loop0" ∧
      toctou_world.stat_before =
        some { st_dev := 5, st_ino := 1, st_mode := 0o600,
               st_uid := 1000 } ∧
      toctou_world.bind_target.st_ino = 2 :=
  ⟨rfl, rfl, rfl⟩

/-- C5 amended: loop association checks ownership and owner read+write
permission with stat (not through an open descriptor), binds the path —
re-resolved by losetup at bind time — under raised privilege, and then
re-stats the source, succeeding only when the second stat agrees with
the first on st_dev, st_mode and st_uid; the inode is never compared,
so success does not guarantee that the bound file is the inode that was
checked. -/
theorem loopdev_associate_amended (w : LoopWorld) (d : String)
    (h : loopdev_associate w = some d) :
    ∃ before after,
      w.stat_before = some before ∧ w.stat_after = some after ∧
      before.st_uid = w.caller_uid ∧
      before.st_mode &&& S_IRUSR ≠ 0 ∧ before.st_mode &&& S_IWUSR ≠ 0 ∧
      w.bind_status = 0 ∧
      after.st_dev = before.st_dev ∧ after.st_mode = before.st_mode ∧
      after.st_uid = before.st_uid := by
  obtain ⟨before, after, hsb, hsa, hperm, _, hbind, h1, h2, h3⟩ :=
    loopdev_associate_success_spec w d h
  simp only [Bool.and_eq_true, beq_iff_eq, bne_iff_ne, ne_eq] at hperm
  exact ⟨before, after, hsb, hsa, hperm.1.1, hperm.1.2, hperm.2, hbind,
    h1, h2, h3⟩

/-- C5 amended witness: the amended properties hold at the concrete
swap world, where association succeeds with /dev/loop0. -/
theorem loopdev_associate_amended_witness :
    ∃ before after,
      toctou_world.stat_before = some before ∧
      toctou_world.stat_after = some after ∧
      before.st_uid = toctou_world.caller_uid ∧
      before.st_mode &&& S_IRUSR ≠ 0 ∧ before.st_mode &&& S_IWUSR ≠ 0 ∧
      toctou_world.bind_status = 0 ∧
      after.st_dev = before.st_dev ∧ after.st_mode = before.st_mode ∧
      after.st_uid = before.st_uid :=
  loopdev_associate_amended toctou_world "/dev/loop0" (by rfl)

/-- A do_mount call either bails out before spawning (empty trace) or
spawns the external mount program exactly once, for the requested
filesystem, with the requested stderr suppression. -/
theorem do_mount_trace_cases (me : String → Option String → Int)
    (fsn : String) (ioch : Option String) (um fm dm : Option Nat)
    (sup : Bool) :
    (do_mount me fsn ioch um fm dm sup).1 = [] ∨
      (do_mount me fsn ioch um fm dm sup).1 =
        [{ fsname := fsn, suppress := sup }] := by
  unfold do_mount
  split
  · exact Or.inl rfl
  · split
    · exact Or.inl rfl
    · split
      · exact Or.inl rfl
      · split
        · exact Or.inl rfl
        · split
          · split
            · exact Or.inl rfl
            · exact Or.inr rfl
          · exact Or.inr rfl

/-- Every attempt recorded by a do_mount call carries the requested
filesystem name and stderr suppression flag. -/
theorem do_mount_mem (me : String → Option String → Int) (fsn : String)
    (ioch : Option String) (um fm dm : Option Nat) (sup : Bool)
    (a : Attempt) (ha : a ∈ (do_mount me fsn ioch um fm dm sup).1) :
    a.fsname = fsn ∧ a.suppress = sup := by
  rcases do_mount_trace_cases me fsn ioch um fm dm sup with h | h <;>
    rw [h] at ha
  · cases ha
  · rw [List.mem_singleton] at ha
    subst ha
    exact ⟨rfl, rfl⟩

/-- The fsname trace of a do_mount call is a sublist of the singleton
of the requested filesystem name. -/
theorem do_mount_trace_map_sublist (me : String → Option String → Int)
    (fsn : String) (ioch : Option String) (um fm dm : Option Nat)
    (sup : Bool) :
    List.Sublist ((do_mount me fsn ioch um fm dm sup).1.map Attempt.fsname)
      [fsn] := by
  rcases do_mount_trace_cases me fsn ioch um fm dm sup with h | h <;> rw [h]
  · exact List.nil_sublist _
  · exact List.Sublist.refl _

/-- The skip test of the autodetection loop, negated: whether an entry
of the table is a candidate (skip_autodetect entries are skipped unless
they are ntfs-3g and the ntfs-3g helper is installed). -/
def autodetect_keep (ntfs3g_avail : Bool) (f : FS) : Bool :=
  !(f.skip_autodetect && !(f.fsname == "ntfs-3g" && ntfs3g_avail))

/-- The candidates the autodetection loop attempts follow the declared
table order: the fsname trace of the loop is a sublist of the kept
table names in order, each taken at most twice (the charset retry). -/
theorem do_mount_auto_go_order (me : String → Option String → Int)
    (ntfs3g : Bool) (ioch : Option String) (um fm dm : Option Nat) :
    ∀ (l : List FS) (b : Bool) (res : Int),
      List.Sublist
        ((do_mount_auto_go me ntfs3g ioch um fm dm l b res).1.map
          Attempt.fsname)
        (((l.filter (autodetect_keep ntfs3g)).map FS.fsname).flatMap
          (fun n => [n, n])) := by
  intro l
  induction l with
  | nil => intro b res; simp [do_mount_auto_go]
  | cons f rest ih =>
    intro b res
    by_cases hskip :
        (f.skip_autodetect && !(f.fsname == "ntfs-3g" && ntfs3g)) = true
    · have hkeep : autodetect_keep ntfs3g f = false := by
        unfold autodetect_keep
        rw [hskip]
        rfl
      rw [do_mount_auto_go, if_pos hskip,
        List.filter_cons_of_neg (by simp [hkeep])]
      exact ih b res
    · have hkeep : autodetect_keep ntfs3g f = true := by
        unfold autodetect_keep
        rw [Bool.eq_false_iff.mpr hskip]
        rfl
      rw [do_mount_auto_go, if_neg hskip,
        List.filter_cons_of_pos (by simp [hkeep])]
      simp only [List.map_cons, List.flatMap_cons]
      have hfirst : ∀ (io : Option String) (sup : Bool),
          List.Sublist
            ((do_mount me f.fsname io um fm dm sup).1.map Attempt.fsname)
            [f.fsname] :=
        fun io sup => do_mount_trace_map_sublist me f.fsname io um fm dm sup
      have hone : ∀ (io : Option String) (sup : Bool),
          List.Sublist
            ((do_mount me f.fsname io um fm dm sup).1.map Attempt.fsname)
            [f.fsname, f.fsname] :=
        fun io sup => (hfirst io sup).trans
          ((List.nil_sublist [f.fsname]).cons₂ f.fsname)
      repeat' split
      all_goals try simp only [List.map_append]
      all_goals
        first
        | exact (hone _ _).trans (List.sublist_append_left _ _)
        | exact (List.Sublist.append (hfirst _ _) (hfirst _ _)).trans
            (List.sublist_append_left _ _)
        | exact List.Sublist.append
            (List.Sublist.append (hfirst _ _) (hfirst _ _)) (ih _ _)
        | exact List.Sublist.append (hone _ _) (ih _ _)

/-- Anatomy of an attempt recorded by the autodetection loop: it
belongs to some table entry f, splitting the table as l₁ ++ f :: l₂,
and its stderr suppression is the nostderr value at that entry: cleared
when f is the last entry (l₂ empty), the carried flag otherwise. -/
theorem do_mount_auto_go_mem (me : String → Option String → Int)
    (ntfs3g : Bool) (ioch : Option String) (um fm dm : Option Nat) :
    ∀ (l : List FS) (b : Bool) (res : Int) (a : Attempt),
      a ∈ (do_mount_auto_go me ntfs3g ioch um fm dm l b res).1 →
      ∃ l₁ f l₂, l = l₁ ++ f :: l₂ ∧ a.fsname = f.fsname ∧
        a.suppress = (if l₂.isEmpty then false else b) := by
  intro l
  induction l with
  | nil => intro b res a ha; simp [do_mount_auto_go] at ha
  | cons f rest ih =>
    intro b res a ha
    by_cases hskip :
        (f.skip_autodetect && !(f.fsname == "ntfs-3g" && ntfs3g)) = true
    · rw [do_mount_auto_go, if_pos hskip] at ha
      obtain ⟨l₁, g, l₂, hdec, hname, hsup⟩ := ih b res a ha
      exact ⟨f :: l₁, g, l₂, by rw [hdec]; rfl, hname, hsup⟩
    · cases hre : rest.isEmpty with
      | true =>
        have hrnil : rest = [] := List.isEmpty_iff.mp hre
        subst hrnil
        rw [do_mount_auto_go, if_neg hskip] at ha
        simp only [List.isEmpty_nil, reduceIte, do_mount_auto_go,
          List.append_nil] at ha
        have hmem : ∀ (io : Option String),
            a ∈ (do_mount me f.fsname io um fm dm false).1 →
            ∃ l₁ g l₂, f :: ([] : List FS) = l₁ ++ g :: l₂ ∧
              a.fsname = g.fsname ∧
              a.suppress = (if l₂.isEmpty then false else b) := by
          intro io hm
          obtain ⟨hn, hs⟩ := do_mount_mem me f.fsname io um fm dm _ a hm
          exact ⟨[], f, [], rfl, hn, by simpa using hs⟩
        repeat' split at ha
        all_goals try simp only [List.mem_append] at ha
        all_goals
          first
          | exact hmem _ ha
          | (rcases ha with ha | ha <;>
              first
              | exact hmem _ ha
              | exact absurd ha (List.not_mem_nil a))
          | (rcases ha with (ha | ha) | ha <;>
              first
              | exact hmem _ ha
              | exact absurd ha (List.not_mem_nil a))
      | false =>
        rw [do_mount_auto_go, if_neg hskip, hre] at ha
        simp only [Bool.false_eq_true, if_false] at ha
        have hmem : ∀ (io : Option String),
            a ∈ (do_mount me f.fsname io um fm dm b).1 →
            ∃ l₁ g l₂, f :: rest = l₁ ++ g :: l₂ ∧ a.fsname = g.fsname ∧
              a.suppress = (if l₂.isEmpty then false else b) := by
          intro io hm
          obtain ⟨hn, hs⟩ := do_mount_mem me f.fsname io um fm dm _ a hm
          exact ⟨[], f, rest, rfl, hn, by simp [hre, hs]⟩
        have hnext : ∀ res₂ : Int,
            a ∈ (do_mount_auto_go me ntfs3g ioch um fm dm rest b res₂).1 →
            ∃ l₁ g l₂, f :: rest = l₁ ++ g :: l₂ ∧ a.fsname = g.fsname ∧
              a.suppress = (if l₂.isEmpty then false else b) := by
          intro res₂ hm
          obtain ⟨l₁, g, l₂, hdec, hname, hsup⟩ := ih b res₂ a hm
          exact ⟨f :: l₁, g, l₂, by rw [hdec]; rfl, hname, hsup⟩
        repeat' split at ha
        all_goals try simp only [List.mem_append] at ha
        all_goals
          first
          | exact hmem _ ha
          | exact hnext _ ha
          | (rcases ha with ha | ha <;>
              first
              | exact hmem _ ha
              | exact hnext _ ha)
          | (rcases ha with (ha | ha) | ha <;>
              first
              | exact hmem _ ha
              | exact hnext _ ha)

/-- In any decomposition of the supported-filesystem table around an
entry f, f is the final entry exactly when its name is ntfs (the name
of the declared last table entry, which is unique in the table). -/
theorem supported_fs_last_name (l₁ : List FS) (f : FS) (l₂ : List FS)
    (h : supported_fs = l₁ ++ f :: l₂) :
    l₂.isEmpty = true ↔ f.fsname = "ntfs" := by
  constructor
  · intro he
    have hnil : l₂ = [] := List.isEmpty_iff.mp he
    subst hnil
    have hval : supported_fs.getLast? = some f := by
      rw [h, List.getLast?_append_cons]
      rfl
    have hcomp : supported_fs.getLast? =
        some { fsname := "ntfs", options := "nosuid,nodev,user",
               support_ugid := true, umask := some "077",
               iocharset_format := some ",nls=%s", fdmask := none,
               skip_autodetect := false } := rfl
    rw [hcomp] at hval
    have hf := Option.some_injective _ hval
    rw [← hf]
  · intro hname
    by_contra he
    have hne : l₂ ≠ [] := by
      intro hx
      exact he (by simp [hx])
    obtain ⟨g, gs, rfl⟩ := List.exists_cons_of_ne_nil hne
    have hnames : supported_fs.map FS.fsname =
        l₁.map FS.fsname ++ "ntfs" :: g.fsname :: gs.map FS.fsname := by
      rw [h, ← hname]
      simp
    have hnodup : (supported_fs.map FS.fsname).Nodup := by decide
    rw [hnames] at hnodup
    have hmid := (List.nodup_append.mp hnodup).2.1
    have hnotin : "ntfs" ∉ g.fsname :: gs.map FS.fsname :=
      (List.nodup_cons.mp hmid).1
    have hlast : (supported_fs.map FS.fsname).getLast? = some "ntfs" := rfl
    rw [hnames, List.getLast?_append_cons, List.getLast?_cons_cons] at hlast
    have hmemlast : "ntfs" ∈ (g.fsname :: gs.map FS.fsname).getLast? :=
      Option.mem_def.mpr hlast
    obtain ⟨hx, hy⟩ := List.mem_getLast?_eq_getLast hmemlast
    exact hnotin (hy ▸ List.getLast_mem hx)

/-- C6: with an explicit filesystem type (that the table knows, with
valid masks and an acceptable charset) the mount stage performs exactly
one external mount invocation, for that type, with stderr visible; and
under autodetection the attempts walk the supported-filesystem table in
declared order (each kept candidate attempted at most twice, for the
charset retry), with the external stderr suppressed on every candidate
except the final table entry ntfs. -/
theorem mount_probe_order (me : String → Option String → Int)
    (ntfs3g : Bool) (ioch : Option String) (um fm dm : Option Nat)
    (fstype : String) (fs : FS)
    (h1 : get_fs_info fstype = some fs)
    (h2 : mask_invalid um = false) (h3 : mask_invalid fm = false)
    (h4 : mask_invalid dm = false)
    (h5 : ∀ cs, ioch = some cs → fs.iocharset_format.isSome = true →
      is_word_str cs = true) :
    do_mount me fstype ioch um fm dm false =
        ([{ fsname := fstype, suppress := false }], me fstype ioch) ∧
      List.Sublist
        ((do_mount_auto me ntfs3g ioch um fm dm).1.map Attempt.fsname)
        ((((get_supported_fs).filter (autodetect_keep ntfs3g)).map
          FS.fsname).flatMap (fun n => [n, n])) ∧
      ∀ a ∈ (do_mount_auto me ntfs3g ioch um fm dm).1,
        (a.suppress = false ↔ a.fsname = "ntfs") := by
  refine ⟨?_, ?_, ?_⟩
  · unfold do_mount
    rw [h1]
    simp only [h2, h3, h4, Bool.false_eq_true, if_false]
    cases hio : ioch with
    | none => cases fs.iocharset_format <;> rfl
    | some cs =>
      cases hfmt : fs.iocharset_format with
      | none => rfl
      | some fmt =>
        have hw := h5 cs hio (by rw [hfmt]; rfl)
        simp [hw]
  · exact do_mount_auto_go_order me ntfs3g ioch um fm dm supported_fs
      true (-1)
  · intro a ha
    unfold do_mount_auto get_supported_fs at ha
    obtain ⟨l₁, g, l₂, hdec, hname, hsup⟩ :=
      do_mount_auto_go_mem me ntfs3g ioch um fm dm supported_fs true (-1)
        a ha
    have hlast := supported_fs_last_name l₁ g l₂ hdec
    constructor
    · intro h0
      cases he : l₂.isEmpty with
      | true => exact hname.trans (hlast.mp he)
      | false =>
        rw [he, h0] at hsup
        exact absurd hsup.symm (by simp)
    · intro h0
      rw [hlast.mpr (hname ▸ h0)] at hsup
      simpa using hsup

/-- C6 witness: with the always-failing mount oracle returning status 2,
an explicit vfat mount performs exactly the single unsuppressed vfat
attempt, and the autodetection trace respects table order and the
stderr-suppression rule. -/
theorem mount_probe_order_witness :
    do_mount (fun _ _ => (2 : Int)) "vfat" none none none none false =
        ([{ fsname := "vfat", suppress := false }], 2) ∧
      List.Sublist
        ((do_mount_auto (fun _ _ => (2 : Int)) false none none none
          none).1.map Attempt.fsname)
        ((((get_supported_fs).filter (autodetect_keep false)).map
          FS.fsname).flatMap (fun n => [n, n])) ∧
      ∀ a ∈ (do_mount_auto (fun _ _ => (2 : Int)) false none none none
          none).1,
        (a.suppress = false ↔ a.fsname = "ntfs") :=
  mount_probe_order (fun _ _ => (2 : Int)) false none none none none
    "vfat"
    { fsname := "vfat", options := "nosuid,nodev,user,quiet,shortname=mixed",
      support_ugid := true, umask := some "077",
      iocharset_format := some ",iocharset=%s",
      fdmask := some ",fmask=%04o,dmask=%04o", skip_autodetect := false }
    rfl rfl rfl rfl (fun cs hcs _ => nomatch hcs)

end Pmount
